import Mathlib

/-!
Verification of the restaurant-dashboard repository (src/app.py, src/auth.py).

The dashboard loads a CSV of transactions, derives revenue/cost/profit/margin
columns (`carregar_dados`), filters by date range / category / weekday
(`filtrar_dados`), computes aggregate metrics (`mostrar_metricas`), ranks
products (`analise_produtos`), and gates access with a flat-file credential
check (`auth.py`).

Modelling choices:
* A dataframe is a `List Record`; a raw CSV row is a `RawRecord`.
* Dates are integer day numbers, with day 0 taken to be a Monday; the calendar
  arithmetic of the date library is abstracted to arithmetic modulo 7
  (`dia_semana_of`) and an abstract month function (`mes_of`).
* Numeric columns are `ℚ`.  Pandas element-wise division by zero produces
  NaN/inf rather than raising; a float that may be NaN/inf is modelled as
  `Option ℚ`, with `none` for the undefined case (`qdiv`).
* `groupby` sorts group keys; string ordering is the lexicographic `strLe`.
* `nlargest n` sorts the series by value, descending and stable, and takes the
  first `n` entries; stable sorting is `List.insertionSort`.
-/

/-- Portuguese weekday names in Monday-first order, the codomain of the
`dias_portugues` mapping applied to `day_name()` in `carregar_dados`. -/
def dias_portugues : List String :=
  ["Segunda", "Terça", "Quarta", "Quinta", "Sexta", "Sábado", "Domingo"]

/-- Weekday name of an integer day number (day 0 is a Monday), already mapped
to Portuguese as in `carregar_dados`. -/
def dia_semana_of (d : Int) : String :=
  dias_portugues.getD (d % 7).toNat ""

/-- English month names, the codomain of `month_name()`. -/
def meses : List String :=
  ["January", "February", "March", "April", "May", "June", "July",
   "August", "September", "October", "November", "December"]

/-- Month name of a day number.  The exact calendar mapping of the date
library is irrelevant to every claim; what matters is that the month column
is a function of the raw date, which this is. -/
def mes_of (d : Int) : String :=
  meses.getD ((d / 30) % 12).toNat ""

/-- A raw row of `data/dados_ficticios.csv`: date, category, product,
quantity, unit price, unit cost. -/
structure RawRecord where
  data : Int
  categoria : String
  produto : String
  quantidade : ℚ
  preco_unitario : ℚ
  custo_unitario : ℚ
deriving DecidableEq

/-- A row after `carregar_dados` has added the derived columns
`receita`, `custo`, `lucro`, `margem_lucro`, `dia_semana`, `mes`. -/
structure Record where
  data : Int
  categoria : String
  produto : String
  quantidade : ℚ
  preco_unitario : ℚ
  custo_unitario : ℚ
  receita : ℚ
  custo : ℚ
  lucro : ℚ
  margem_lucro : Option ℚ
  dia_semana : String
  mes : String
deriving DecidableEq

/-- Element-wise division as pandas performs it: division by zero does not
raise but yields NaN/±inf, modelled as `none`. -/
def qdiv (a b : ℚ) : Option ℚ :=
  if b = 0 then none else some (a / b)

/-- The derivation step of `carregar_dados` (src/app.py lines 20-36) on one
row: `receita = quantidade * preco_unitario`, `custo = quantidade *
custo_unitario`, `lucro = receita - custo`,
`margem_lucro = (lucro / receita) * 100` (unguarded element-wise division),
`dia_semana` and `mes` from the date. -/
def enrich (r : RawRecord) : Record :=
  let receita := r.quantidade * r.preco_unitario
  let custo := r.quantidade * r.custo_unitario
  let lucro := receita - custo
  { data := r.data
    categoria := r.categoria
    produto := r.produto
    quantidade := r.quantidade
    preco_unitario := r.preco_unitario
    custo_unitario := r.custo_unitario
    receita := receita
    custo := custo
    lucro := lucro
    margem_lucro := (qdiv lucro receita).map (fun m => m * 100)
    dia_semana := dia_semana_of r.data
    mes := mes_of r.data }

/-- `carregar_dados` (src/app.py lines 16-38): read the CSV rows and add the
derived columns row by row. -/
def carregar_dados (rows : List RawRecord) : List Record :=
  rows.map enrich

/-- `filtrar_dados` (src/app.py lines 73-85): keep rows whose date lies in
the inclusive range `datas`; then, when the category selection is nonempty
(Python truthiness of the list), keep rows whose category is selected; then
likewise for weekdays. -/
def filtrar_dados (df : List Record) (datas : Int × Int)
    (categorias : List String) (dias : List String) : List Record :=
  let df1 := df.filter (fun r => decide (datas.1 ≤ r.data) && decide (r.data ≤ datas.2))
  let df2 := if categorias = [] then df1
    else df1.filter (fun r => decide (r.categoria ∈ categorias))
  if dias = [] then df2
  else df2.filter (fun r => decide (r.dia_semana ∈ dias))

/-- `receita_total` of `mostrar_metricas` (src/app.py line 88). -/
def receita_total (df : List Record) : ℚ :=
  (df.map Record.receita).sum

/-- `lucro_total` of `mostrar_metricas` (src/app.py line 89). -/
def lucro_total (df : List Record) : ℚ :=
  (df.map Record.lucro).sum

/-- `margem_media` of `mostrar_metricas` (src/app.py line 90):
`(lucro_total / receita_total) * 100 if receita_total > 0 else 0`.
The division is modelled through `qdiv` like every other float division. -/
def margem_media (df : List Record) : Option ℚ :=
  if receita_total df > 0 then (qdiv (lucro_total df) (receita_total df)).map (fun m => m * 100)
  else some 0

/-- The filter of `analise_detalhada` (src/app.py lines 237-241): inclusive
date range plus a minimum-profit threshold. -/
def analise_detalhada_filtro (df : List Record) (data_inicio data_fim : Int)
    (limite_lucro : ℚ) : List Record :=
  df.filter (fun r =>
    decide (data_inicio ≤ r.data) && decide (r.data ≤ data_fim) &&
      decide (limite_lucro ≤ r.lucro))

/-- `df["margem_lucro"].mean()` as used by `recomendar_acoes`
(src/app.py line 217): the unweighted mean of the per-record margins;
pandas `mean` skips undefined (NaN) entries. -/
def margem_media_simples (df : List Record) : ℚ :=
  ((df.map Record.margem_lucro).reduceOption).sum /
    ((df.map Record.margem_lucro).reduceOption.length : ℚ)

/-- The revenue-weighted mean of the per-record margins, as the spec words it
("average margin (revenue-weighted)"); meaningful when every record's margin
is defined.  Stated from the spec for comparison with `margem_media`. -/
def margem_media_ponderada (df : List Record) : ℚ :=
  (df.map (fun r => r.receita * (r.margem_lucro).getD 0)).sum / receita_total df

/-- Lexicographic string order on the character lists. -/
def strLeAux : List Char → List Char → Bool
  | [], _ => true
  | _ :: _, [] => false
  | c :: cs, d :: ds => if c < d then true else if d < c then false else strLeAux cs ds

/-- Lexicographic string order, the order in which `groupby` sorts its
string keys. -/
def strLe (a b : String) : Bool :=
  strLeAux a.data b.data

/-- Comparison used by `nlargest`: the pair with the larger value comes
first. -/
def valGe (a b : String × ℚ) : Prop :=
  b.2 ≤ a.2

instance : DecidableRel valGe :=
  fun a b => inferInstanceAs (Decidable (b.2 ≤ a.2))

instance : IsTotal (String × ℚ) valGe :=
  ⟨fun a b => (le_total b.2 a.2).elim Or.inl Or.inr⟩

instance : IsTrans (String × ℚ) valGe :=
  ⟨fun _ _ _ hab hbc => le_trans hbc hab⟩

/-- `df.groupby(key)[col].sum()`: one `(key, sum)` pair per distinct key,
keys in sorted order as pandas produces them. -/
def groupby_sum (df : List Record) (key : Record → String) (val : Record → ℚ) :
    List (String × ℚ) :=
  (((df.map key).insertionSort (fun a b => strLe a b = true)).dedup).map
    (fun k => (k, ((df.filter (fun r => key r == k)).map val).sum))

/-- `df.groupby(key)[col].count()` (cast to ℚ so rankings compare in one
type): one `(key, count)` pair per distinct key. -/
def groupby_count (df : List Record) (key : Record → String) :
    List (String × ℚ) :=
  (((df.map key).insertionSort (fun a b => strLe a b = true)).dedup).map
    (fun k => (k, ((df.filter (fun r => key r == k)).length : ℚ)))

/-- `series.nlargest n`: sort by value descending (stable) and take the
first `n` entries. -/
def nlargest (n : Nat) (s : List (String × ℚ)) : List (String × ℚ) :=
  (s.insertionSort valGe).take n

/-- `top_produtos` of `analise_produtos` (src/app.py line 164):
`df.groupby("produto")["lucro"].sum().nlargest(5)`. -/
def top_produtos (df : List Record) : List (String × ℚ) :=
  nlargest 5 (groupby_sum df Record.produto Record.lucro)

/-- The product ranking as the spec words it ("takes the top-N products by
count"): the top 5 products by number of records.  Stated from the spec for
comparison with `top_produtos`. -/
def top_produtos_por_contagem (df : List Record) : List (String × ℚ) :=
  nlargest 5 (groupby_count df Record.produto)

/-- A value of the credential table: the JSON object `{"password": ...}`
stored under each username in users.json. -/
structure Credential where
  password : String
deriving DecidableEq

/-- The `User` class of src/auth.py lines 8-10: wraps the username as `id`. -/
structure User where
  id : String
deriving DecidableEq

/-- `get_user` (src/auth.py lines 12-15): `User(username)` when the username
is a key of the credential table, `None` otherwise. -/
def get_user (users : List (String × Credential)) (username : String) : Option User :=
  if username ∈ users.map Prod.fst then some ⟨username⟩ else none

/-- `validate_login` (src/auth.py lines 17-18):
`username in USERS and USERS[username]["password"] == password`.
Dictionary key membership and indexing are `List.lookup` on the
association list. -/
def validate_login (users : List (String × Credential))
    (username password : String) : Bool :=
  match users.lookup username with
  | some c => c.password == password
  | none => false

/-- The session states of the Auth Gate. -/
inductive SessionState where
  | Anonymous
  | Authenticated
deriving DecidableEq

/-- Modelled from the spec: the login route that consumes `validate_login`
lives in the web app, which is not under src/ (src/ holds only auth.py).
Per the spec's Auth Gate state machine, a login attempt moves the session to
Authenticated exactly when the credential check succeeds and otherwise
leaves it where it was. -/
def login_step (users : List (String × Credential)) (s : SessionState)
    (username password : String) : SessionState :=
  if validate_login users username password then SessionState.Authenticated else s

/-! ## Helper lemmas -/

lemma mem_filtrar_dados {df : List Record} {datas : Int × Int}
    {categorias dias : List String} {r : Record} :
    r ∈ filtrar_dados df datas categorias dias ↔
      r ∈ df ∧ (datas.1 ≤ r.data ∧ r.data ≤ datas.2) ∧
        (categorias = [] ∨ r.categoria ∈ categorias) ∧
        (dias = [] ∨ r.dia_semana ∈ dias) := by
  unfold filtrar_dados
  by_cases hc : categorias = [] <;> by_cases hd : dias = [] <;>
    simp [hc, hd, List.mem_filter] <;> tauto

lemma filtrar_dados_sublist (df : List Record) (datas : Int × Int)
    (categorias dias : List String) :
    (filtrar_dados df datas categorias dias).Sublist df := by
  unfold filtrar_dados
  have h1 := List.filter_sublist
    (p := fun r : Record => decide (datas.1 ≤ r.data) && decide (r.data ≤ datas.2)) df
  by_cases hc : categorias = [] <;> by_cases hd : dias = [] <;>
    simp only [hc, hd, if_pos, if_neg, if_true, if_false, reduceIte] <;>
    first
      | exact h1
      | exact (List.filter_sublist _).trans h1
      | exact ((List.filter_sublist _).trans (List.filter_sublist _)).trans h1

lemma mem_carregar_dados {rows : List RawRecord} {r : Record}
    (hr : r ∈ carregar_dados rows) : ∃ raw ∈ rows, r = enrich raw := by
  rcases List.mem_map.mp hr with ⟨raw, hraw, hEq⟩
  exact ⟨raw, hraw, hEq.symm⟩

lemma receita_carregar_dados {rows : List RawRecord} {r : Record}
    (hr : r ∈ carregar_dados rows) :
    r.receita = r.quantidade * r.preco_unitario := by
  rcases mem_carregar_dados hr with ⟨raw, _, hEq⟩
  subst hEq
  simp [enrich]

lemma margem_carregar_dados {rows : List RawRecord} {r : Record}
    (hr : r ∈ carregar_dados rows) :
    r.margem_lucro = (qdiv r.lucro r.receita).map (fun m => m * 100) := by
  rcases mem_carregar_dados hr with ⟨raw, _, hEq⟩
  subst hEq
  simp [enrich]

lemma filtrar_dados_eq_self {df : List Record} {datas : Int × Int}
    {categorias dias : List String}
    (h : ∀ r ∈ df, (datas.1 ≤ r.data ∧ r.data ≤ datas.2) ∧
      (categorias = [] ∨ r.categoria ∈ categorias) ∧
      (dias = [] ∨ r.dia_semana ∈ dias)) :
    filtrar_dados df datas categorias dias = df := by
  unfold filtrar_dados
  have h1 : df.filter (fun r => decide (datas.1 ≤ r.data) && decide (r.data ≤ datas.2)) = df := by
    refine List.filter_eq_self.mpr fun r hr => ?_
    have := (h r hr).1
    simp [this.1, this.2]
  have hcat : ¬categorias = [] →
      df.filter (fun r => decide (r.categoria ∈ categorias)) = df := by
    intro hc
    refine List.filter_eq_self.mpr fun r hr => ?_
    rcases (h r hr).2.1 with h3 | h3
    · exact absurd h3 hc
    · simpa using h3
  have hdia : ∀ l : List Record, (∀ r ∈ l, r ∈ df) → ¬dias = [] →
      l.filter (fun r => decide (r.dia_semana ∈ dias)) = l := by
    intro l hl hd
    refine List.filter_eq_self.mpr fun r hr => ?_
    rcases (h r (hl r hr)).2.2 with h3 | h3
    · exact absurd h3 hd
    · simpa using h3
  by_cases hc : categorias = [] <;> by_cases hd : dias = [] <;>
    simp only [h1, hc, hd, reduceIte, if_true, if_false]
  · exact hdia df (fun r hr => hr) hd
  · exact hcat hc
  · rw [hcat hc]
    exact hdia df (fun r hr => hr) hd

/-! ## Claims about the Filter Engine -/

/-- C4: for every table, date range, category set and weekday set, the Filter
Engine returns exactly the records whose date lies in the inclusive range AND
whose category is selected AND whose weekday is selected, where an empty
category or weekday selection imposes no restriction on that dimension. -/
theorem filtrar_dados_caracterizacao (df : List Record) (datas : Int × Int)
    (categorias dias : List String) (r : Record) :
    r ∈ filtrar_dados df datas categorias dias ↔
      r ∈ df ∧ (datas.1 ≤ r.data ∧ r.data ≤ datas.2) ∧
        (categorias = [] ∨ r.categoria ∈ categorias) ∧
        (dias = [] ∨ r.dia_semana ∈ dias) :=
  mem_filtrar_dados

/-- C5: filtering is idempotent — applying the Filter Engine twice with the
same date range, category set and weekday set returns the same list as
applying it once. -/
theorem filtrar_dados_idempotente (df : List Record) (datas : Int × Int)
    (categorias dias : List String) :
    filtrar_dados (filtrar_dados df datas categorias dias) datas categorias dias =
      filtrar_dados df datas categorias dias :=
  filtrar_dados_eq_self fun _ hr => (mem_filtrar_dados.mp hr).2

/-- C6: for every table and every date range whose start is strictly greater
than its end, the Filter Engine returns the empty list, whatever the category
and weekday selections are. -/
theorem filtrar_dados_intervalo_vazio (df : List Record) (datas : Int × Int)
    (categorias dias : List String) (h : datas.2 < datas.1) :
    filtrar_dados df datas categorias dias = [] := by
  unfold filtrar_dados
  have h1 : df.filter (fun r => decide (datas.1 ≤ r.data) && decide (r.data ≤ datas.2)) = [] := by
    refine List.filter_eq_nil_iff.mpr fun r _ => ?_
    simp only [Bool.and_eq_true, decide_eq_true_eq, not_and]
    intro h2 h3
    omega
  by_cases hc : categorias = [] <;> by_cases hd : dias = [] <;>
    simp [h1, hc, hd]

/-- Witness for C6 at a concrete table and range. -/
theorem filtrar_dados_intervalo_vazio_witness :
    filtrar_dados (carregar_dados [⟨5, "Bebidas", "Suco", 1, 5, 3⟩]) (7, 2) [] [] = [] :=
  filtrar_dados_intervalo_vazio _ (7, 2) [] [] (by norm_num)

/-- C9: every record of a filtered view — through the main filter of
`filtrar_dados` or the detailed-analysis filter with its minimum-profit
threshold — is a record of the table it was filtered from: filtered views are
sublists (hence subsets) of the loaded table, and filtering never mutates or
adds records. -/
theorem filtrar_subconjunto (df : List Record) (datas : Int × Int)
    (categorias dias : List String) (data_inicio data_fim : Int)
    (limite_lucro : ℚ) :
    (filtrar_dados df datas categorias dias).Sublist df ∧
      filtrar_dados df datas categorias dias ⊆ df ∧
      (analise_detalhada_filtro df data_inicio data_fim limite_lucro).Sublist df ∧
      analise_detalhada_filtro df data_inicio data_fim limite_lucro ⊆ df := by
  refine ⟨filtrar_dados_sublist df datas categorias dias,
    (filtrar_dados_sublist df datas categorias dias).subset,
    List.filter_sublist df, (List.filter_sublist df).subset⟩

/-- Witness for C9: a concrete record surviving each filter is a record of
the original table. -/
theorem filtrar_subconjunto_witness :
    enrich ⟨5, "Bebidas", "Suco", 1, 5, 3⟩ ∈ carregar_dados [⟨5, "Bebidas", "Suco", 1, 5, 3⟩] := by
  have h := (filtrar_subconjunto (carregar_dados [⟨5, "Bebidas", "Suco", 1, 5, 3⟩])
    (0, 9) [] [] 0 9 0).2.1
  exact h (by simp [filtrar_dados, carregar_dados, enrich, List.filter])

/-! ## Claims about the Metrics Calculator -/

/-- C1 counterexample: the claim says the per-record margin computed at load
time is defined even when a record's revenue is zero, but `carregar_dados`
computes `(lucro / receita) * 100` with no guard: a record with quantity 0
has revenue 0 and an undefined (NaN) margin. -/
theorem margem_registro_nao_garantida :
    ∃ r ∈ carregar_dados [⟨0, "Bebidas", "Suco", 0, 5, 3⟩], r.margem_lucro = none := by
  refine ⟨enrich ⟨0, "Bebidas", "Suco", 0, 5, 3⟩, by simp [carregar_dados], ?_⟩
  simp [enrich, qdiv]

/-- C1 (amended): only the aggregate average margin of the Metrics Calculator
is guarded against division by zero — it is defined for every filtered set
and returns 0 when the total revenue is 0 (or not positive); the per-record
margin field of the loader is unguarded. -/
theorem margem_media_definida (df : List Record) :
    (margem_media df).isSome = true ∧
      (receita_total df = 0 → margem_media df = some 0) := by
  constructor
  · unfold margem_media
    split
    · next h => simp [qdiv, ne_of_gt h]
    · simp
  · intro h
    unfold margem_media
    rw [if_neg (by rw [h]; exact lt_irrefl 0)]

/-- Witness for C1 (amended) at the empty filtered set. -/
theorem margem_media_definida_witness : margem_media [] = some 0 :=
  (margem_media_definida []).2 rfl

/-- C7: for every loaded table and filter selection, the total revenue of the
filtered set equals the sum over its records of quantity times unit price. -/
theorem receita_total_soma (rows : List RawRecord) (datas : Int × Int)
    (categorias dias : List String) :
    receita_total (filtrar_dados (carregar_dados rows) datas categorias dias) =
      ((filtrar_dados (carregar_dados rows) datas categorias dias).map
        (fun r => r.quantidade * r.preco_unitario)).sum := by
  unfold receita_total
  congr 1
  refine List.map_congr_left fun r hr => ?_
  exact receita_carregar_dados
    ((filtrar_dados_sublist (carregar_dados rows) datas categorias dias).subset hr)

/-! ## Claims about the Auth Gate -/

/-- C8: the credential check succeeds exactly when the username is a key of
the credential table and the given password is string-equal to the password
stored for it; a login attempt from Anonymous reaches Authenticated exactly
on success and stays Anonymous on failure. -/
theorem validate_login_caracterizacao (users : List (String × Credential))
    (username password : String) :
    (validate_login users username password = true ↔
      ∃ c, users.lookup username = some c ∧ c.password = password) ∧
    login_step users SessionState.Anonymous username password =
      (if validate_login users username password then SessionState.Authenticated
       else SessionState.Anonymous) := by
  constructor
  · unfold validate_login
    cases h : users.lookup username with
    | none => simp
    | some c => simp [h, beq_iff_eq]
  · rfl

/-- C10: the user lookup returns a user exactly when the username is a key of
the credential table, the returned user's id is the queried username, and an
unknown username yields `none` rather than an error. -/
theorem get_user_caracterizacao (users : List (String × Credential))
    (username : String) :
    ((get_user users username).isSome = true ↔ username ∈ users.map Prod.fst) ∧
      (∀ usr, get_user users username = some usr → usr.id = username) ∧
      (username ∉ users.map Prod.fst → get_user users username = none) := by
  refine ⟨?_, ?_, ?_⟩
  · unfold get_user
    split <;> simp_all
  · intro usr h
    unfold get_user at h
    split at h
    · cases h
      rfl
    · cases h
  · intro h
    unfold get_user
    exact if_neg h

/-- Witness for C10 at a concrete table: an absent username yields `none`. -/
theorem get_user_caracterizacao_witness :
    get_user [("admin", ⟨"1234"⟩)] "bob" = none :=
  (get_user_caracterizacao [("admin", ⟨"1234"⟩)] "bob").2.2 (by decide)

lemma soma_margens_ponderadas (df : List Record)
    (h : ∀ r ∈ df, r.margem_lucro = (qdiv r.lucro r.receita).map (fun m => m * 100))
    (h2 : ∀ r ∈ df, r.receita ≠ 0) :
    (df.map (fun r => r.receita * (r.margem_lucro).getD 0)).sum = lucro_total df * 100 := by
  unfold lucro_total
  rw [← List.sum_map_mul_right]
  refine congrArg _ (List.map_congr_left fun r hr => ?_)
  rw [h r hr]
  have hne := h2 r hr
  simp only [qdiv, if_neg hne, Option.map_some, Option.getD_some]
  field_simp

/-- C3: for every filtered set with positive total revenue (whose records all
carry revenue, so that each per-record margin is defined), the average margin
of the Metrics Calculator equals total profit over total revenue times 100,
which is the revenue-weighted mean of the per-record margins; and it is not
the unweighted mean of the per-record margins, which differs from it on a
concrete table. -/
theorem margem_media_e_ponderada (rows : List RawRecord) (datas : Int × Int)
    (categorias dias : List String)
    (h1 : 0 < receita_total (filtrar_dados (carregar_dados rows) datas categorias dias))
    (h2 : ∀ r ∈ filtrar_dados (carregar_dados rows) datas categorias dias, r.receita ≠ 0) :
    margem_media (filtrar_dados (carregar_dados rows) datas categorias dias) =
      some (lucro_total (filtrar_dados (carregar_dados rows) datas categorias dias) /
        receita_total (filtrar_dados (carregar_dados rows) datas categorias dias) * 100) ∧
    margem_media (filtrar_dados (carregar_dados rows) datas categorias dias) =
      some (margem_media_ponderada (filtrar_dados (carregar_dados rows) datas categorias dias)) ∧
    ∃ dfx : List Record, 0 < receita_total dfx ∧ (∀ r ∈ dfx, r.receita ≠ 0) ∧
      margem_media dfx ≠ some (margem_media_simples dfx) := by
  set F := filtrar_dados (carregar_dados rows) datas categorias dias with hF
  have hforma : margem_media F = some (lucro_total F / receita_total F * 100) := by
    unfold margem_media
    rw [if_pos h1]
    simp [qdiv, ne_of_gt h1]
  refine ⟨hforma, ?_, ?_⟩
  · rw [hforma]
    unfold margem_media_ponderada
    rw [soma_margens_ponderadas F
      (fun r hr => margem_carregar_dados
        ((filtrar_dados_sublist (carregar_dados rows) datas categorias dias).subset hr)) h2]
    rw [div_mul_eq_mul_div]
  · refine ⟨carregar_dados [⟨0, "A", "P", 1, 10, 5⟩, ⟨0, "A", "Q", 1, 90, 81⟩], ?_, ?_, ?_⟩
    · norm_num [receita_total, carregar_dados, enrich]
    · intro r hr
      simp only [carregar_dados, List.map_cons, List.map_nil, List.mem_cons,
        List.not_mem_nil, or_false] at hr
      rcases hr with rfl | rfl <;> norm_num [enrich]
    · have hl : margem_media (carregar_dados [⟨0, "A", "P", 1, 10, 5⟩, ⟨0, "A", "Q", 1, 90, 81⟩]) =
          some 14 := by
        simp only [margem_media, receita_total, lucro_total, carregar_dados, enrich, qdiv,
          List.map_cons, List.map_nil, List.sum_cons, List.sum_nil]
        norm_num
      have hr : margem_media_simples (carregar_dados [⟨0, "A", "P", 1, 10, 5⟩, ⟨0, "A", "Q", 1, 90, 81⟩]) =
          30 := by
        simp only [margem_media_simples, carregar_dados, enrich, qdiv,
          List.map_cons, List.map_nil]
        norm_num [List.reduceOption, List.filterMap_cons, List.filterMap_nil, id]
      rw [hl, hr]
      norm_num

/-- Witness for C3 at a concrete loaded table and the all-pass selection. -/
theorem margem_media_e_ponderada_witness :
    margem_media (filtrar_dados
        (carregar_dados [⟨0, "A", "P", 1, 10, 5⟩, ⟨0, "A", "Q", 1, 90, 81⟩]) (0, 0) [] []) =
      some (margem_media_ponderada (filtrar_dados
        (carregar_dados [⟨0, "A", "P", 1, 10, 5⟩, ⟨0, "A", "Q", 1, 90, 81⟩]) (0, 0) [] [])) :=
  (margem_media_e_ponderada [⟨0, "A", "P", 1, 10, 5⟩, ⟨0, "A", "Q", 1, 90, 81⟩] (0, 0) [] []
    (by norm_num [filtrar_dados, carregar_dados, enrich, receita_total, qdiv, List.filter_cons])
    (by intro r hr
        simp only [filtrar_dados, carregar_dados, enrich, qdiv, List.map_cons, List.map_nil,
          List.filter_cons, List.filter_nil] at hr
        norm_num at hr
        rcases hr with rfl | rfl <;> norm_num)).2.1

/-! ## Claims about the Chart Builder -/

/-- C2 (amended): the product ranking of the Chart Builder returns at most 5
products ordered by decreasing total profit (`groupby("produto")["lucro"]
.sum().nlargest(5)`): each returned pair is a product group of the filtered
set carrying the sum of that product's profit, and every product group left
out has a total no larger than any returned one. -/
theorem top_produtos_caracterizacao (df : List Record) :
    (top_produtos df).length ≤ 5 ∧
    List.Sorted valGe (top_produtos df) ∧
    (∀ p ∈ top_produtos df, p ∈ groupby_sum df Record.produto Record.lucro ∧
      p.2 = ((df.filter (fun r => r.produto == p.1)).map Record.lucro).sum) ∧
    (∀ p ∈ top_produtos df, ∀ q ∈ groupby_sum df Record.produto Record.lucro,
      q ∉ top_produtos df → q.2 ≤ p.2) := by
  have hsorted : List.Sorted valGe
      ((groupby_sum df Record.produto Record.lucro).insertionSort valGe) :=
    List.sorted_insertionSort valGe _
  have hperm := List.perm_insertionSort valGe (groupby_sum df Record.produto Record.lucro)
  refine ⟨List.length_take_le 5 _, ?_, ?_, ?_⟩
  · exact List.Pairwise.sublist (List.take_sublist 5 _) hsorted
  · intro p hp
    have hmem : p ∈ groupby_sum df Record.produto Record.lucro :=
      hperm.mem_iff.mp (List.take_subset 5 _ hp)
    refine ⟨hmem, ?_⟩
    unfold groupby_sum at hmem
    rcases List.mem_map.mp hmem with ⟨k, _, hk⟩
    rw [← hk]
  · intro p hp q hq hqn
    have hq2 : q ∈ List.take 5 ((groupby_sum df Record.produto Record.lucro).insertionSort valGe) ∨
        q ∈ List.drop 5 ((groupby_sum df Record.produto Record.lucro).insertionSort valGe) := by
      rw [← List.mem_append, List.take_append_drop]
      exact hperm.mem_iff.mpr hq
    rcases hq2 with hq2 | hq2
    · exact absurd hq2 hqn
    · have hsplit := hsorted
      rw [← List.take_append_drop 5
        ((groupby_sum df Record.produto Record.lucro).insertionSort valGe)] at hsplit
      exact (List.pairwise_append.mp hsplit).2.2 p hp q hq2

/-- A loaded table with three "Pizza" records of profit 1 each and one
"Suco" record of profit 10: ranked by count "Pizza" comes first, ranked by
total profit "Suco" comes first. -/
def exemplo_produtos : List Record :=
  carregar_dados
    [⟨0, "Comida", "Pizza", 1, 2, 1⟩, ⟨0, "Comida", "Pizza", 1, 2, 1⟩,
     ⟨0, "Comida", "Pizza", 1, 2, 1⟩, ⟨0, "Bebidas", "Suco", 1, 11, 1⟩]

/-- C2 counterexample: on `exemplo_produtos` the Chart Builder's ranking
(`top_produtos`, by total profit) orders the products as ["Suco", "Pizza"],
while the ranking by record count that the claim describes orders them as
["Pizza", "Suco"]; the claimed ordering by count is not what the code
returns. -/
theorem top_produtos_nao_por_contagem :
    (top_produtos exemplo_produtos).map Prod.fst = ["Suco", "Pizza"] ∧
    (top_produtos_por_contagem exemplo_produtos).map Prod.fst = ["Pizza", "Suco"] := by
  refine ⟨?_, ?_⟩ <;>
    simp [top_produtos, top_produtos_por_contagem, nlargest, groupby_sum, groupby_count,
      exemplo_produtos, carregar_dados, enrich, qdiv, List.insertionSort, List.orderedInsert,
      strLe, strLeAux, valGe]
  norm_num

/-- Witness for C2 (amended): on `exemplo_produtos` the pair ("Suco", 10)
returned by the ranking is indeed a product group of the table. -/
theorem top_produtos_caracterizacao_witness :
    ("Suco", (10 : ℚ)) ∈ groupby_sum exemplo_produtos Record.produto Record.lucro := by
  have hm : ("Suco", (10 : ℚ)) ∈ top_produtos exemplo_produtos := by
    simp [top_produtos, nlargest, groupby_sum, exemplo_produtos, carregar_dados, enrich, qdiv,
      List.insertionSort, List.orderedInsert, strLe, strLeAux, valGe]
    norm_num
  exact ((top_produtos_caracterizacao exemplo_produtos).2.2.1 _ hm).1
